import Mathlib

/-!
Shallow embedding of the client SDK of a token-issuance platform
(src/token.ts, src/utils.ts, src/constants.ts, and the sale module) in
Lean 4, together with proofs about its extension conflict resolution,
instruction-plan ordering, transfer-hook extra-account resolution,
transaction-submission flow, sale-purchase account schema, and
time-of-day conversion helpers.

Ledger addresses (public keys) are modelled as abstract naturals; the
network boundary (RPC calls) is modelled as an explicit environment of
fallible functions returning Except, and the try/catch logic of the
source is modelled by matching on those results.
-/

namespace TokenSuite

/-- Ledger addresses, modelled abstractly as naturals. -/
abbrev Addr := Nat

/-- The all-zero default public key (PublicKey.default). On this ledger the
system program id is the same all-zero key. -/
def NULL_ADDRESS : Addr := 0

/-- SystemProgram.programId, the all-zero key. -/
def SYSTEM_PROGRAM_ID : Addr := 0

/-- constants.ts: the transfer hook program id
(base58 AjNBZRCm6jsPjPRiZ3hbAitg9KEgCYqKmGm675Fpi6XU, abstracted). -/
def TRANSFER_HOOK_PROGRAM_ID : Addr := 101

/-- constants.ts: the sale (ICO) program id. -/
def ICO_PROGRAM_ID : Addr := 102

/-- constants.ts: the treasury address. -/
def TREASURY_ADDRESS : Addr := 103

/-- constants.ts: the metadata program id. -/
def METADATA_PROGRAM_ID : Addr := 104

/-- The classic SPL token program id. -/
def TOKEN_PROGRAM_ID : Addr := 105

/-- The extensible (Token-2022) token program id. -/
def TOKEN_2022_PROGRAM_ID : Addr := 106

/-- The associated token account program id. -/
def ASSOCIATED_TOKEN_PROGRAM_ID : Addr := 107

/-- u64 maximum, used by token.ts as the default max transfer amount. -/
def U64_MAX : Nat := 18446744073709551615

-- ── types.ts: capability request ────────────────────────────────────

/-- types.ts TokenExtensions.transferFee payload. -/
structure TransferFeeCfg where
  feeBasisPoints : Nat
  maxFee : Nat
deriving DecidableEq

/-- types.ts TokenExtensions.interestBearing payload. -/
structure InterestBearingCfg where
  rate : Int
deriving DecidableEq

/-- types.ts TokenExtensions: the caller-facing capability request. A TS
optional boolean field is a Bool here (absent = false, matching TS
truthiness), and an optional object field is an Option. -/
structure TokenExtensions where
  permanentDelegation : Bool
  transferFee : Option TransferFeeCfg
  interestBearing : Option InterestBearingCfg
  memoTransfer : Bool
  nonTransferable : Bool
  cpiGuard : Bool
deriving DecidableEq

/-- The empty capability request (TS default argument {}). -/
def TokenExtensions.empty : TokenExtensions :=
  ⟨false, none, none, false, false, false⟩

/-- types.ts TransferHookConfig.tradingHours payload. -/
structure TradingHours where
  openMinuteUTC : Int
  closeMinuteUTC : Int
deriving DecidableEq

/-- types.ts TransferHookConfig.transferLimits payload, in human-readable
units. -/
structure TransferLimits where
  min : Nat
  max : Nat
deriving DecidableEq

/-- types.ts TransferHookConfig. -/
structure TransferHookConfig where
  tradingHours : Option TradingHours
  transferLimits : Option TransferLimits
  nftMintAddress : Option Addr
deriving DecidableEq

/-- The empty transfer hook configuration (TS default argument {}). -/
def TransferHookConfig.empty : TransferHookConfig := ⟨none, none, none⟩

-- ── token.ts: extension composition engine ──────────────────────────

/-- The low-level extension tags of the extensible token standard used by
token.ts. -/
inductive ExtensionType where
  | TransferHook
  | PermanentDelegate
  | TransferFeeConfig
  | InterestBearingConfig
  | NonTransferable
  | MemoTransfer
  | CpiGuard
deriving DecidableEq

/-- token.ts line 62: the transfer hook is disabled when non-transferable
or CPI guard is requested. -/
def isTransferHookDisabled (ext : TokenExtensions) : Bool :=
  ext.nonTransferable || ext.cpiGuard

/-- token.ts line 63: the transfer fee is disabled when non-transferable is
requested. -/
def isTransferFeeDisabled (ext : TokenExtensions) : Bool :=
  ext.nonTransferable

/-- token.ts line 64: the permanent delegate is disabled when
non-transferable is requested. -/
def isPermanentDelegateDisabled (ext : TokenExtensions) : Bool :=
  ext.nonTransferable

/-- token.ts lines 87 to 94: the conflict-resolved list of mint-level
extension tags pushed into extensionTypes, in push order. This is the
resolved capability set whose total size fixes the mint account space. -/
def resolvedExtensionTypes (ext : TokenExtensions) : List ExtensionType :=
  (if !isTransferHookDisabled ext then [ExtensionType.TransferHook] else []) ++
  (if ext.permanentDelegation && !isPermanentDelegateDisabled ext then
    [ExtensionType.PermanentDelegate] else []) ++
  (if ext.transferFee.isSome && !isTransferFeeDisabled ext then
    [ExtensionType.TransferFeeConfig] else []) ++
  (if ext.interestBearing.isSome then [ExtensionType.InterestBearingConfig] else []) ++
  (if ext.nonTransferable then [ExtensionType.NonTransferable] else [])

/-- token.ts lines 185 to 187: the account-level extension tags for the
reallocation of the owner token account. -/
def accountExtensionTypes (ext : TokenExtensions) : List ExtensionType :=
  (if ext.memoTransfer then [ExtensionType.MemoTransfer] else []) ++
  (if ext.cpiGuard then [ExtensionType.CpiGuard] else [])

/-- The instructions token.ts adds to the mint transaction. Payloads keep
the claim-relevant data; the fresh mint address, generated inside
createToken, is implicit (every instruction of one plan targets it), and
the owner token account address is the associated account derived from
the mint and the payer by the token library. In createAccount, extTypes
records the resolved extension list whose getMintLen value is the
allocated space. -/
inductive Ix where
  | createAccount (payer : Addr) (extTypes : List ExtensionType)
  | initNonTransferable
  | initPermanentDelegate (delegate : Addr)
  | initTransferFee (transferFeeAuthority withdrawAuthority : Addr) (bps maxFee : Nat)
  | initInterestBearing (rateAuthority : Addr) (rate : Int)
  | initTransferHook (authority hookProgramId : Addr)
  | initializeMint (decimals : Nat) (mintAuthority freezeAuthority : Addr)
  | createAssociatedTokenAccount (payer owner : Addr)
  | mintTo (authority : Addr) (amount : Nat)
  | reallocate (payer : Addr) (accountExtTypes : List ExtensionType)
  | enableMemoTransfer (owner : Addr)
  | enableCpiGuard (owner : Addr)
  | initializeRegistry (openMinute closeMinute : Option Int)
      (maxTransferAmt minTransferAmt : Nat) (nftMint : Addr)
deriving DecidableEq

/-- token.ts lines 99 to 248: the ordered instruction plan (Tx1) built by
createToken for a given payer, mint parameters, capability request and
hook configuration. Each transaction.add call contributes one element, in
source order; conditions are verbatim from the source. -/
def createTokenPlan (payer : Addr) (decimals supply : Nat)
    (ext : TokenExtensions) (hookConfig : TransferHookConfig) : List Ix :=
  [Ix.createAccount payer (resolvedExtensionTypes ext)] ++
  (if ext.nonTransferable then [Ix.initNonTransferable] else []) ++
  (if ext.permanentDelegation && !isPermanentDelegateDisabled ext then
    [Ix.initPermanentDelegate payer] else []) ++
  (match ext.transferFee with
   | some fee =>
     if !isTransferFeeDisabled ext then
       [Ix.initTransferFee payer payer fee.feeBasisPoints fee.maxFee] else []
   | none => []) ++
  (match ext.interestBearing with
   | some ib => [Ix.initInterestBearing payer ib.rate]
   | none => []) ++
  (if !isTransferHookDisabled ext then
    [Ix.initTransferHook payer TRANSFER_HOOK_PROGRAM_ID] else []) ++
  [Ix.initializeMint decimals payer payer] ++
  [Ix.createAssociatedTokenAccount payer payer] ++
  [Ix.mintTo payer (supply * 10 ^ decimals)] ++
  (if (accountExtensionTypes ext).length > 0 then
    [Ix.reallocate payer (accountExtensionTypes ext)] else []) ++
  (if ext.memoTransfer then [Ix.enableMemoTransfer payer] else []) ++
  (if ext.cpiGuard then [Ix.enableCpiGuard payer] else []) ++
  (if !isTransferHookDisabled ext then
    [Ix.initializeRegistry
      ((hookConfig.tradingHours).map (fun th => th.openMinuteUTC))
      ((hookConfig.tradingHours).map (fun th => th.closeMinuteUTC))
      (match hookConfig.transferLimits with
       | some lim => lim.max * 10 ^ decimals
       | none => U64_MAX)
      (match hookConfig.transferLimits with
       | some lim => lim.min * 10 ^ decimals
       | none => 0)
      ((hookConfig.nftMintAddress).getD NULL_ADDRESS)]
   else [])

-- ── Instruction classifiers and an ordering checker ─────────────────

/-- True for the account-creation (space allocation) instruction. -/
def Ix.isCreateAccount : Ix → Bool
  | .createAccount _ _ => true
  | _ => false

/-- True for the non-transferability initialization. -/
def Ix.isInitNonTransferable : Ix → Bool
  | .initNonTransferable => true
  | _ => false

/-- True for the permanent delegate initialization. -/
def Ix.isInitPermanentDelegate : Ix → Bool
  | .initPermanentDelegate _ => true
  | _ => false

/-- True for the transfer fee config initialization. -/
def Ix.isInitTransferFee : Ix → Bool
  | .initTransferFee _ _ _ _ => true
  | _ => false

/-- True for the interest accrual initialization. -/
def Ix.isInitInterestBearing : Ix → Bool
  | .initInterestBearing _ _ => true
  | _ => false

/-- True for the transfer-policy-gate (transfer hook) initialization. -/
def Ix.isInitTransferHook : Ix → Bool
  | .initTransferHook _ _ => true
  | _ => false

/-- True for any mint-level extension-initialization instruction. -/
def Ix.isMintExtensionInit : Ix → Bool
  | .initNonTransferable => true
  | .initPermanentDelegate _ => true
  | .initTransferFee _ _ _ _ => true
  | .initInterestBearing _ _ => true
  | .initTransferHook _ _ => true
  | _ => false

/-- True for the base mint initialization. -/
def Ix.isInitializeMint : Ix → Bool
  | .initializeMint _ _ _ => true
  | _ => false

/-- True for the owner associated token account creation. -/
def Ix.isCreateAta : Ix → Bool
  | .createAssociatedTokenAccount _ _ => true
  | _ => false

/-- True for the initial supply mint. -/
def Ix.isMintTo : Ix → Bool
  | .mintTo _ _ => true
  | _ => false

/-- True for the owner token account reallocation. -/
def Ix.isReallocate : Ix → Bool
  | .reallocate _ _ => true
  | _ => false

/-- True for the account-level extension enable instructions
(mandatory memo, CPI isolation). -/
def Ix.isEnableAccountExtension : Ix → Bool
  | .enableMemoTransfer _ => true
  | .enableCpiGuard _ => true
  | _ => false

/-- True for the transfer hook registry initialization. -/
def Ix.isInitializeRegistry : Ix → Bool
  | .initializeRegistry _ _ _ _ _ => true
  | _ => false

/-- The kind of an instruction, forgetting its payload. The ordering
claims only depend on instruction kinds, so they are stated over the
projection of the plan to kinds. -/
inductive IxTag where
  | createAccount
  | initNonTransferable
  | initPermanentDelegate
  | initTransferFee
  | initInterestBearing
  | initTransferHook
  | initializeMint
  | createAta
  | mintTo
  | reallocate
  | enableMemoTransfer
  | enableCpiGuard
  | initializeRegistry
deriving DecidableEq

/-- The kind of an instruction. -/
def Ix.tag : Ix → IxTag
  | .createAccount _ _ => .createAccount
  | .initNonTransferable => .initNonTransferable
  | .initPermanentDelegate _ => .initPermanentDelegate
  | .initTransferFee _ _ _ _ => .initTransferFee
  | .initInterestBearing _ _ => .initInterestBearing
  | .initTransferHook _ _ => .initTransferHook
  | .initializeMint _ _ _ => .initializeMint
  | .createAssociatedTokenAccount _ _ => .createAta
  | .mintTo _ _ => .mintTo
  | .reallocate _ _ => .reallocate
  | .enableMemoTransfer _ => .enableMemoTransfer
  | .enableCpiGuard _ => .enableCpiGuard
  | .initializeRegistry _ _ _ _ _ => .initializeRegistry

/-- True for the kinds of the mint-level extension-initialization
instructions (non-transferability, permanent-delegate, transfer-fee,
interest-accrual, transfer-policy-gate). -/
def IxTag.isMintExtensionInit : IxTag → Bool
  | .initNonTransferable => true
  | .initPermanentDelegate => true
  | .initTransferFee => true
  | .initInterestBearing => true
  | .initTransferHook => true
  | _ => false

/-- True for the kinds of the account-level extension enable
instructions. -/
def IxTag.isEnableAccountExtension : IxTag → Bool
  | .enableMemoTransfer => true
  | .enableCpiGuard => true
  | _ => false

/-- allPrecede p q l is true when, in l, every element satisfying p occurs
strictly before every element satisfying q: after any element satisfying
q, no element satisfying p appears. -/
def allPrecede (p q : IxTag → Bool) : List IxTag → Bool
  | [] => true
  | x :: xs => ((!q x) || xs.all (fun y => !p y)) && allPrecede p q xs

-- ── utils.ts: time-of-day conversion helpers ────────────────────────

/-- utils.ts line 20: the fixed local offset (+5h30m) in minutes. -/
def IST_OFFSET : Int := 330

/-- String.padStart(2, "0") of JS: left-pad with zeros to length 2. -/
def padTo2 (s : String) : String :=
  if s.length < 2 then String.mk (List.replicate (2 - s.length) '0') ++ s else s

/-- utils.ts lines 25 to 31 utcMinuteToIstTime: convert a UTC minute-of-day
number to a local wall-clock "HH:MM" string. The JS Math.floor on a
division is Int.fdiv, and the JS remainder keeps the sign of the
dividend, which is Int.tmod. -/
def utcMinuteToIstTime (utcMin : Int) : String :=
  let istMin0 := utcMin + IST_OFFSET
  let istMin := if istMin0 ≥ 1440 then istMin0 - 1440 else istMin0
  let h := Int.fdiv istMin 60
  let m := Int.tmod istMin 60
  padTo2 (toString h) ++ ":" ++ padTo2 (toString m)

/-- Decimal digit run to a number, as JS Number() on a digit string. -/
def parseDigits (l : List Char) : Int :=
  ((l.foldl (fun acc c => acc * 10 + (c.toNat - 48)) 0 : Nat) : Int)

/-- JS Number() restricted to the optional-sign decimal integer strings
this module produces and consumes (the claims only apply it there); a
leading minus negates the digit run. -/
def parseNumber (l : List Char) : Int :=
  match l with
  | '-' :: rest => -(parseDigits rest)
  | other => parseDigits other

/-- utils.ts lines 45 to 50 istTimeToUtcMinute: parse a local "HH:MM"
string and convert to a UTC minute-of-day. The JS split(":") with the
following [h, m] destructuring reads the first two fields; a string
without two fields makes the JS arithmetic NaN, modelled as 0 (no claim
exercises that case). -/
def istTimeToUtcMinute (istTime : String) : Int :=
  match (istTime.data.splitOn ':').map parseNumber with
  | h :: m :: _ =>
    let utcMin := h * 60 + m - IST_OFFSET
    if utcMin < 0 then utcMin + 1440 else utcMin
  | _ => 0

/-- A wall-clock string built from an hour and a minute number, the shape
of every valid "HH:MM" string. -/
def hhmm (h m : Nat) : String :=
  padTo2 (toString h) ++ ":" ++ padTo2 (toString m)

-- ── utils.ts: transfer-hook extra-account resolver ──────────────────

/-- One entry of an instruction account list. -/
structure AccountMeta where
  pubkey : Addr
  isWritable : Bool
  isSigner : Bool
deriving DecidableEq

/-- The decoded TransferHook mint extension: its update authority and the
configured hook program address (the all-zero NULL_ADDRESS when the hook
program was unset). -/
structure TransferHookExt where
  authority : Addr
  programId : Addr
deriving DecidableEq

/-- The decoded mint state, as far as the resolver reads it: the optional
TransferHook extension. -/
structure MintState where
  transferHook : Option TransferHookExt

/-- getTransferHook of the token library: the decoded TransferHook
extension when present on the mint, none otherwise (no check on the
stored program address). -/
def getTransferHook (m : MintState) : Option TransferHookExt :=
  m.transferHook

/-- The network boundary of utils.ts and the sale module, as an explicit
environment of fallible RPC-backed operations. -/
structure LedgerEnv where
  /-- getMint: fetch and decode the mint account; raises (error) when the
  account is missing or not a mint. -/
  getMint : Addr → Except String MintState
  /-- addExtraAccountMetasForExecute of the token library: the dynamic
  account resolution protocol. Takes the current instruction key list,
  the hook program id, the four canonical transfer accounts and the
  amount, and returns the expanded key list (the TS mutates the
  instruction in place); raises (error) when the probe fails. -/
  addExtraAccountMetas : List AccountMeta → Addr → Addr → Addr → Addr → Addr →
    Nat → Except String (List AccountMeta)
  /-- getAccountInfo owner probe: the owner program of an account, none
  when the account does not exist. -/
  getAccountInfoOwner : Addr → Option Addr

/-- createTransferCheckedInstruction with no multisig signers: the four
canonical keys in order source (writable), mint, destination (writable),
authority (signer). -/
def transferCheckedKeys (source mint destination authority : Addr) : List AccountMeta :=
  [⟨source, true, false⟩, ⟨mint, false, false⟩,
   ⟨destination, true, false⟩, ⟨authority, false, true⟩]

/-- utils.ts lines 177 to 220 resolveTransferHookAccounts, instrumented:
the first component is the returned extra-account list, the second
records whether dynamic account resolution (addExtraAccountMetasForExecute)
was invoked. The try/catch of the source maps every error to the empty
list; a missing hook extension returns the empty list before any dynamic
resolution; otherwise the mock transfer-checked instruction is expanded
and everything beyond the four canonical keys is returned verbatim. The
decimals argument only enters the mock instruction data, not its keys. -/
def resolveTransferHookAccountsTraced (env : LedgerEnv)
    (mint source destination authority : Addr) (amount : Nat) (decimals : Nat) :
    List AccountMeta × Bool :=
  let _ := decimals
  match env.getMint mint with
  | .error _ => ([], false)
  | .ok mintState =>
    match getTransferHook mintState with
    | none => ([], false)
    | some hookInfo =>
      let mockKeys := transferCheckedKeys source mint destination authority
      match env.addExtraAccountMetas mockKeys hookInfo.programId
          source mint destination authority amount with
      | .error _ => ([], true)
      | .ok keys => (keys.drop 4, true)

/-- utils.ts resolveTransferHookAccounts: the extra-account list itself. -/
def resolveTransferHookAccounts (env : LedgerEnv)
    (mint source destination authority : Addr) (amount : Nat) (decimals : Nat) :
    List AccountMeta :=
  (resolveTransferHookAccountsTraced env mint source destination authority
    amount decimals).1

-- ── Transaction submission flows ────────────────────────────────────

/-- The outcome of simulateTransaction: an optional error and the
structured simulation log lines. -/
structure SimResult where
  err : Option String
  logs : List String

/-- One observable ledger-facing step of a submission flow. -/
inductive TxStep where
  | simulate
  | send (skipPreflight : Bool)
  | confirm
deriving DecidableEq

/-- The error message token.ts throws when the mint simulation fails,
carrying the stringified error and the joined log lines. -/
def mintSimFailureMessage (e : String) (logs : List String) : String :=
  "Mint simulation failed: " ++ e ++ "\nLogs:\n" ++ String.intercalate "\n" logs

/-- token.ts lines 279 to 292: the submission flow of the mint transaction
given the simulation outcome. On a simulation error the flow stops after
the simulate step and throws (second component) with the structured log;
otherwise it sends with skipPreflight set to true and confirms. -/
def createTokenSubmitFlow (sim : SimResult) : List TxStep × Option String :=
  match sim.err with
  | some e => ([TxStep.simulate], some (mintSimFailureMessage e sim.logs))
  | none => ([TxStep.simulate, TxStep.send true, TxStep.confirm], none)

/-- utils.ts lines 141 to 150 sendAndConfirmVersionedTransaction: fetch a
blockhash, send the raw transaction with the given skipPreflight flag
(the TS default is false), and poll for confirmation. No simulation step
occurs in this helper. -/
def sendAndConfirmVersionedTransactionFlow (skipPreflight : Bool) : List TxStep :=
  [TxStep.send skipPreflight, TxStep.confirm]

/-- The TS default value of the skipPreflight parameter of
sendAndConfirmVersionedTransaction. -/
def sendAndConfirmDefaultSkipPreflight : Bool := false

-- ── Sale module: buyToken purchase instruction accounts ─────────────

/-- getTokenProgram of the sale module: the extensible token program when
the mint account is owned by it, the classic token program otherwise
(including when the mint account is missing). -/
def getTokenProgram (env : LedgerEnv) (mint : Addr) : Addr :=
  match env.getAccountInfoOwner mint with
  | some owner =>
    if owner = TOKEN_2022_PROGRAM_ID then TOKEN_2022_PROGRAM_ID else TOKEN_PROGRAM_ID
  | none => TOKEN_PROGRAM_ID

/-- buyToken: the resolved transfer hook extra accounts for the vault to
buyer transfer, resolved only for an extensible-token mint. -/
def buyTokenExtraAccounts (env : LedgerEnv)
    (mint vaultAta buyerAta icoVaultAccount : Addr) (amountUnits : Nat) :
    List AccountMeta :=
  if getTokenProgram env mint = TOKEN_2022_PROGRAM_ID then
    resolveTransferHookAccounts env mint vaultAta buyerAta icoVaultAccount
      amountUnits 9
  else []

/-- Modelled from the spec: the account list of the purchase instruction
built by buyToken. The Anchor IDL file (idl/ico.json) that fixes the
on-wire account order of the sale program is not under src/; the fixed
account order here follows the sale purchase account schema of the spec,
which coincides with the order of the accounts object literal in
buyToken. The derived addresses (global config, sale config, vault, the
two token accounts) and the creator fetched from the sale record are
taken as parameters, since their derivation does not affect the schema.
The remainingAccounts call appends the resolved extra accounts. -/
def buyTokenPurchaseAccounts (env : LedgerEnv)
    (buyer mint config creator icoConfigAccount icoVaultAccount vaultAta buyerAta : Addr)
    (amountUnits : Nat) : List Addr :=
  [buyer, mint, config, creator, icoConfigAccount, icoVaultAccount, vaultAta,
   buyerAta, getTokenProgram env mint, ASSOCIATED_TOKEN_PROGRAM_ID,
   SYSTEM_PROGRAM_ID] ++
  (buyTokenExtraAccounts env mint vaultAta buyerAta icoVaultAccount
    amountUnits).map (fun a => a.pubkey)

-- ── Claim C1 ────────────────────────────────────────────────────────

/-- C1: for every capability request in which nonTransferable is set, the
resolved capability set, and equivalently the extension-initialization
instructions emitted by createToken, exclude permanent-delegate,
transfer-fee and the transfer-policy-gate, regardless of which other
capabilities were requested. -/
theorem c1_nonTransferable_excludes (payer decimals supply : Nat)
    (ext : TokenExtensions) (hookConfig : TransferHookConfig)
    (h : ext.nonTransferable = true) :
    ExtensionType.PermanentDelegate ∉ resolvedExtensionTypes ext ∧
    ExtensionType.TransferFeeConfig ∉ resolvedExtensionTypes ext ∧
    ExtensionType.TransferHook ∉ resolvedExtensionTypes ext ∧
    (createTokenPlan payer decimals supply ext hookConfig).all
      (fun ix => !(ix.isInitPermanentDelegate || ix.isInitTransferFee ||
        ix.isInitTransferHook)) = true := by
  obtain ⟨pd, tf, ib, memo, nt, cpi⟩ := ext
  cases nt with
  | false => exact Bool.noConfusion h
  | true =>
    cases pd <;> cases tf <;> cases ib <;> cases memo <;> cases cpi <;>
      refine ⟨?_, ?_, ?_, ?_⟩ <;>
        simp [resolvedExtensionTypes, isTransferHookDisabled, isTransferFeeDisabled,
          isPermanentDelegateDisabled, createTokenPlan, accountExtensionTypes,
          Ix.isInitPermanentDelegate, Ix.isInitTransferFee, Ix.isInitTransferHook]

/-- Witness for C1: a request asking for permanent delegation, a transfer
fee and non-transferability resolves with all three exclusions applied. -/
def requestAllConflicts : TokenExtensions :=
  ⟨true, some ⟨50, 5000⟩, none, false, true, false⟩

theorem c1_nonTransferable_excludes_witness :
    requestAllConflicts.nonTransferable = true ∧
    ExtensionType.PermanentDelegate ∉ resolvedExtensionTypes requestAllConflicts ∧
    ExtensionType.TransferFeeConfig ∉ resolvedExtensionTypes requestAllConflicts ∧
    ExtensionType.TransferHook ∉ resolvedExtensionTypes requestAllConflicts ∧
    (createTokenPlan 1 6 1000 requestAllConflicts TransferHookConfig.empty).all
      (fun ix => !(ix.isInitPermanentDelegate || ix.isInitTransferFee ||
        ix.isInitTransferHook)) = true :=
  ⟨rfl, c1_nonTransferable_excludes 1 6 1000 requestAllConflicts
    TransferHookConfig.empty rfl⟩

-- ── Claim C2 ────────────────────────────────────────────────────────

/-- The kind sequence of the createToken plan as an explicit function of
the six request booleans (proof helper: planTags_eq shows the plan
projects onto it). -/
def planTagsModel (pd tfP ibP memo nt cpi : Bool) : List IxTag :=
  [IxTag.createAccount] ++
  (if nt then [IxTag.initNonTransferable] else []) ++
  (if pd && !nt then [IxTag.initPermanentDelegate] else []) ++
  (if tfP && !nt then [IxTag.initTransferFee] else []) ++
  (if ibP then [IxTag.initInterestBearing] else []) ++
  (if !(nt || cpi) then [IxTag.initTransferHook] else []) ++
  [IxTag.initializeMint, IxTag.createAta, IxTag.mintTo] ++
  (if memo || cpi then [IxTag.reallocate] else []) ++
  (if memo then [IxTag.enableMemoTransfer] else []) ++
  (if cpi then [IxTag.enableCpiGuard] else []) ++
  (if !(nt || cpi) then [IxTag.initializeRegistry] else [])

/-- The kind sequence of the createToken plan depends only on the six
request booleans. -/
lemma planTags_eq (payer decimals supply : Nat)
    (ext : TokenExtensions) (hookConfig : TransferHookConfig) :
    (createTokenPlan payer decimals supply ext hookConfig).map Ix.tag =
      planTagsModel ext.permanentDelegation ext.transferFee.isSome
        ext.interestBearing.isSome ext.memoTransfer ext.nonTransferable
        ext.cpiGuard := by
  obtain ⟨pd, tf, ib, memo, nt, cpi⟩ := ext
  cases pd <;> cases tf <;> cases ib <;> cases memo <;> cases nt <;> cases cpi <;>
    simp [createTokenPlan, planTagsModel, accountExtensionTypes,
      resolvedExtensionTypes, isTransferHookDisabled, isTransferFeeDisabled,
      isPermanentDelegateDisabled, Ix.tag]

/-- Every ordering fact of C2 holds of the kind-sequence model, for every
combination of the six request booleans. -/
lemma planTagsModel_ordered (pd tfP ibP memo nt cpi : Bool) :
    (planTagsModel pd tfP ibP memo nt cpi).head? = some IxTag.createAccount ∧
    allPrecede IxTag.isMintExtensionInit (fun t => t == IxTag.initializeMint)
      (planTagsModel pd tfP ibP memo nt cpi) = true ∧
    allPrecede (fun t => t == IxTag.initializeMint) (fun t => t == IxTag.createAta)
      (planTagsModel pd tfP ibP memo nt cpi) = true ∧
    allPrecede (fun t => t == IxTag.createAta) (fun t => t == IxTag.mintTo)
      (planTagsModel pd tfP ibP memo nt cpi) = true ∧
    allPrecede (fun t => t == IxTag.mintTo) (fun t => t == IxTag.reallocate)
      (planTagsModel pd tfP ibP memo nt cpi) = true ∧
    allPrecede (fun t => t == IxTag.reallocate) IxTag.isEnableAccountExtension
      (planTagsModel pd tfP ibP memo nt cpi) = true ∧
    (nt = false → cpi = false →
      (planTagsModel pd tfP ibP memo nt cpi).getLast? =
        some IxTag.initializeRegistry) := by
  revert pd tfP ibP memo nt cpi
  decide

/-- C2: for every capability request, the createToken instruction plan is
ordered so that the account-creation instruction comes first, every
mint-extension-initialization instruction precedes the base
InitializeMint, the owner associated token account is created only after
InitializeMint, the initial supply is minted only after that creation,
any reallocation for account-level extensions follows the initial-supply
mint and precedes the enable instructions, and, when the transfer-policy
gate survives conflict resolution, the registry initialization is the
last instruction of the plan. Ordering is stated over the projection of
the plan to instruction kinds, on which the ordering predicates are
defined. -/
theorem c2_plan_ordering (payer decimals supply : Nat)
    (ext : TokenExtensions) (hookConfig : TransferHookConfig) :
    ((createTokenPlan payer decimals supply ext hookConfig).map Ix.tag).head? =
      some IxTag.createAccount ∧
    allPrecede IxTag.isMintExtensionInit (fun t => t == IxTag.initializeMint)
      ((createTokenPlan payer decimals supply ext hookConfig).map Ix.tag) = true ∧
    allPrecede (fun t => t == IxTag.initializeMint) (fun t => t == IxTag.createAta)
      ((createTokenPlan payer decimals supply ext hookConfig).map Ix.tag) = true ∧
    allPrecede (fun t => t == IxTag.createAta) (fun t => t == IxTag.mintTo)
      ((createTokenPlan payer decimals supply ext hookConfig).map Ix.tag) = true ∧
    allPrecede (fun t => t == IxTag.mintTo) (fun t => t == IxTag.reallocate)
      ((createTokenPlan payer decimals supply ext hookConfig).map Ix.tag) = true ∧
    allPrecede (fun t => t == IxTag.reallocate) IxTag.isEnableAccountExtension
      ((createTokenPlan payer decimals supply ext hookConfig).map Ix.tag) = true ∧
    (ext.nonTransferable = false → ext.cpiGuard = false →
      ((createTokenPlan payer decimals supply ext hookConfig).map Ix.tag).getLast? =
        some IxTag.initializeRegistry) := by
  rw [planTags_eq]
  exact planTagsModel_ordered ext.permanentDelegation ext.transferFee.isSome
    ext.interestBearing.isSome ext.memoTransfer ext.nonTransferable ext.cpiGuard

/-- Witness for C2: a request combining a transfer fee, interest accrual
and a mandatory memo, with the gate surviving, puts the registry
initialization last. -/
def requestRichHooked : TokenExtensions :=
  ⟨false, some ⟨25, 900⟩, some ⟨420⟩, true, false, false⟩

theorem c2_plan_ordering_witness :
    requestRichHooked.nonTransferable = false ∧
    requestRichHooked.cpiGuard = false ∧
    ((createTokenPlan 2 9 5000 requestRichHooked TransferHookConfig.empty).map
      Ix.tag).getLast? = some IxTag.initializeRegistry :=
  ⟨rfl, rfl,
    (c2_plan_ordering 2 9 5000 requestRichHooked
      TransferHookConfig.empty).2.2.2.2.2.2 rfl rfl⟩

-- ── Claim C7 ────────────────────────────────────────────────────────

/-- The request of the C7 scenario: a 50 basis-point transfer fee with max
fee 5000, permanent delegation, and non-transferability. -/
def requestC7 : TokenExtensions :=
  ⟨true, some ⟨50, 5000⟩, none, false, true, false⟩

/-- C7 counterexample: the scenario request does NOT resolve to the empty
capability set, and an extension IS initialized for it — the resolved set
is exactly the non-transferability extension, and the plan contains its
initialization instruction. -/
theorem c7_counterexample :
    resolvedExtensionTypes requestC7 ≠ [] ∧
    resolvedExtensionTypes requestC7 = [ExtensionType.NonTransferable] ∧
    Ix.initNonTransferable ∈
      createTokenPlan 3 6 1000 requestC7 TransferHookConfig.empty := by
  decide

/-- C7 amended: the scenario request resolves to the capability set
holding exactly the non-transferability extension; the three capabilities
excluded by non-transferability (permanent-delegate, transfer-fee,
transfer-policy-gate) are all absent, and the only extension-initialization
instruction in the plan is the non-transferable one. -/
theorem c7_amended :
    resolvedExtensionTypes requestC7 = [ExtensionType.NonTransferable] ∧
    ExtensionType.PermanentDelegate ∉ resolvedExtensionTypes requestC7 ∧
    ExtensionType.TransferFeeConfig ∉ resolvedExtensionTypes requestC7 ∧
    ExtensionType.TransferHook ∉ resolvedExtensionTypes requestC7 ∧
    (createTokenPlan 3 6 1000 requestC7 TransferHookConfig.empty).filter
      Ix.isMintExtensionInit = [Ix.initNonTransferable] := by
  decide

-- ── Claim C10 ───────────────────────────────────────────────────────

/-- C10: for every capability request in which neither nonTransferable nor
cpiGuard is set — including the empty request — the createToken plan
initializes the transfer hook pointing at the fixed hook program and ends
with the registry-initialization instruction: policy gating is on by
default rather than opt-in. -/
theorem c10_hook_on_by_default (payer decimals supply : Nat)
    (ext : TokenExtensions) (hookConfig : TransferHookConfig)
    (h1 : ext.nonTransferable = false) (h2 : ext.cpiGuard = false) :
    ExtensionType.TransferHook ∈ resolvedExtensionTypes ext ∧
    Ix.initTransferHook payer TRANSFER_HOOK_PROGRAM_ID ∈
      createTokenPlan payer decimals supply ext hookConfig ∧
    ((createTokenPlan payer decimals supply ext hookConfig).map Ix.tag).getLast? =
      some IxTag.initializeRegistry := by
  obtain ⟨pd, tf, ib, memo, nt, cpi⟩ := ext
  cases nt with
  | true => exact Bool.noConfusion h1
  | false =>
    cases cpi with
    | true => exact Bool.noConfusion h2
    | false =>
      refine ⟨?_, ?_, ?_⟩
      · cases pd <;> cases tf <;> cases ib <;>
          simp [resolvedExtensionTypes, isTransferHookDisabled,
            isPermanentDelegateDisabled, isTransferFeeDisabled]
      · cases pd <;> cases tf <;> cases ib <;> cases memo <;>
          simp [createTokenPlan, isTransferHookDisabled,
            isPermanentDelegateDisabled, isTransferFeeDisabled,
            accountExtensionTypes]
      · rw [planTags_eq]
        cases pd <;> cases tf <;> cases ib <;> cases memo <;> rfl

/-- Witness for C10: the empty capability request still gets the transfer
hook and the final registry initialization. -/
theorem c10_hook_on_by_default_witness :
    TokenExtensions.empty.nonTransferable = false ∧
    TokenExtensions.empty.cpiGuard = false ∧
    (ExtensionType.TransferHook ∈ resolvedExtensionTypes TokenExtensions.empty ∧
      Ix.initTransferHook 4 TRANSFER_HOOK_PROGRAM_ID ∈
        createTokenPlan 4 2 777 TokenExtensions.empty TransferHookConfig.empty ∧
      ((createTokenPlan 4 2 777 TokenExtensions.empty
        TransferHookConfig.empty).map Ix.tag).getLast? =
        some IxTag.initializeRegistry) :=
  ⟨rfl, rfl,
    c10_hook_on_by_default 4 2 777 TokenExtensions.empty
      TransferHookConfig.empty rfl rfl⟩

-- ── Claim C3 ────────────────────────────────────────────────────────

/-- C3: resolveTransferHookAccounts never raises to its caller — every
failure mode (mint fetch failure, no hook extension attached, probe
failure during dynamic resolution) yields the empty extra-account set,
never an exception and never a partial result. -/
theorem c3_resolver_never_raises (env : LedgerEnv)
    (mint source destination authority : Addr) (amount decimals : Nat) :
    (∀ e, env.getMint mint = .error e →
      resolveTransferHookAccounts env mint source destination authority
        amount decimals = []) ∧
    (∀ ms, env.getMint mint = .ok ms → getTransferHook ms = none →
      resolveTransferHookAccounts env mint source destination authority
        amount decimals = []) ∧
    (∀ ms hook e, env.getMint mint = .ok ms → getTransferHook ms = some hook →
      env.addExtraAccountMetas (transferCheckedKeys source mint destination authority)
        hook.programId source mint destination authority amount = .error e →
      resolveTransferHookAccounts env mint source destination authority
        amount decimals = []) := by
  refine ⟨?_, ?_, ?_⟩
  · intro e he
    simp [resolveTransferHookAccounts, resolveTransferHookAccountsTraced, he]
  · intro ms hms hhook
    simp [resolveTransferHookAccounts, resolveTransferHookAccountsTraced, hms, hhook]
  · intro ms hook e hms hhook hprobe
    simp [resolveTransferHookAccounts, resolveTransferHookAccountsTraced, hms,
      hhook, hprobe]

/-- An environment whose mint fetch always fails. -/
def envMintMissing : LedgerEnv :=
  ⟨fun _ => .error "account not found", fun _ _ _ _ _ _ _ => .ok [],
   fun _ => none⟩

/-- An environment whose mint carries no transfer hook extension. -/
def envNoHook : LedgerEnv :=
  ⟨fun _ => .ok ⟨none⟩, fun _ _ _ _ _ _ _ => .ok [], fun _ => none⟩

/-- An environment whose dynamic account resolution probe fails. -/
def envProbeFailing : LedgerEnv :=
  ⟨fun _ => .ok ⟨some ⟨9, 55⟩⟩, fun _ _ _ _ _ _ _ => .error "probe failed",
   fun _ => none⟩

theorem c3_resolver_never_raises_witness :
    resolveTransferHookAccounts envMintMissing 10 11 12 13 100 9 = [] ∧
    resolveTransferHookAccounts envNoHook 10 11 12 13 100 9 = [] ∧
    resolveTransferHookAccounts envProbeFailing 10 11 12 13 100 9 = [] :=
  ⟨(c3_resolver_never_raises envMintMissing 10 11 12 13 100 9).1
      "account not found" rfl,
   (c3_resolver_never_raises envNoHook 10 11 12 13 100 9).2.1 ⟨none⟩ rfl rfl,
   (c3_resolver_never_raises envProbeFailing 10 11 12 13 100 9).2.2
      ⟨some ⟨9, 55⟩⟩ ⟨9, 55⟩ "probe failed" rfl rfl rfl⟩

-- ── Claim C4 ────────────────────────────────────────────────────────

/-- C4: over a mint that carries a transfer hook, when dynamic resolution
succeeds by appending the resolved extra accounts to the four canonical
transfer keys, resolveTransferHookAccounts returns exactly the suffix of
the expanded instruction starting at index 4 — the extra accounts
verbatim, in resolver order, with the writable and signer flags exactly
as resolved. -/
theorem c4_resolver_returns_extras (env : LedgerEnv)
    (mint source destination authority : Addr) (amount decimals : Nat)
    (ms : MintState) (hook : TransferHookExt) (extras : List AccountMeta)
    (hms : env.getMint mint = .ok ms)
    (hhook : getTransferHook ms = some hook)
    (hexp : env.addExtraAccountMetas
      (transferCheckedKeys source mint destination authority) hook.programId
      source mint destination authority amount =
      .ok (transferCheckedKeys source mint destination authority ++ extras)) :
    resolveTransferHookAccounts env mint source destination authority
      amount decimals = extras := by
  simp only [resolveTransferHookAccounts, resolveTransferHookAccountsTraced,
    hms, hhook]
  rw [hexp]
  simp [transferCheckedKeys]

/-- An environment whose mint carries a hook at program 77 and whose probe
resolves three extra accounts (one writable marker, the hook program, the
validation state account). -/
def envThreeExtras : LedgerEnv :=
  ⟨fun _ => .ok ⟨some ⟨9, 77⟩⟩,
   fun keys _ _ _ _ _ _ =>
     .ok (keys ++ [⟨201, true, false⟩, ⟨77, false, false⟩, ⟨202, false, false⟩]),
   fun _ => none⟩

theorem c4_resolver_returns_extras_witness :
    resolveTransferHookAccounts envThreeExtras 20 21 22 23 500 6 =
      [⟨201, true, false⟩, ⟨77, false, false⟩, ⟨202, false, false⟩] :=
  c4_resolver_returns_extras envThreeExtras 20 21 22 23 500 6
    ⟨some ⟨9, 77⟩⟩ ⟨9, 77⟩
    [⟨201, true, false⟩, ⟨77, false, false⟩, ⟨202, false, false⟩]
    rfl rfl rfl

-- ── Claim C8 ────────────────────────────────────────────────────────

/-- An environment whose mint carries a hook extension whose configured
program address is the all-zero null address, and whose probe resolves
one extra account. -/
def envNullProgramHook : LedgerEnv :=
  ⟨fun _ => .ok ⟨some ⟨9, NULL_ADDRESS⟩⟩,
   fun keys _ _ _ _ _ _ => .ok (keys ++ [⟨203, false, false⟩]),
   fun _ => none⟩

/-- C8 counterexample: on a mint whose hook extension stores the null
program address, resolveTransferHookAccounts DOES perform dynamic account
resolution (the source checks only that the extension is present, never
its stored program address), and the result is whatever suffix the
resolution produces — not necessarily empty. -/
theorem c8_counterexample :
    getTransferHook ⟨some ⟨9, NULL_ADDRESS⟩⟩ = some ⟨9, NULL_ADDRESS⟩ ∧
    (resolveTransferHookAccountsTraced envNullProgramHook 30 31 32 33 100 9).2 =
      true ∧
    resolveTransferHookAccounts envNullProgramHook 30 31 32 33 100 9 =
      [⟨203, false, false⟩] := by
  constructor
  · rfl
  · constructor <;> rfl

/-- C8 amended: when the mint has no transfer hook extension (or the mint
fetch fails) resolveTransferHookAccounts returns the empty set without
performing dynamic account resolution; but whenever the extension is
present, dynamic account resolution is performed — the stored hook
program address is never compared against the null address. -/
theorem c8_amended (env : LedgerEnv)
    (mint source destination authority : Addr) (amount decimals : Nat) :
    (∀ e, env.getMint mint = .error e →
      resolveTransferHookAccountsTraced env mint source destination authority
        amount decimals = ([], false)) ∧
    (∀ ms, env.getMint mint = .ok ms → getTransferHook ms = none →
      resolveTransferHookAccountsTraced env mint source destination authority
        amount decimals = ([], false)) ∧
    (∀ ms hook, env.getMint mint = .ok ms → getTransferHook ms = some hook →
      (resolveTransferHookAccountsTraced env mint source destination authority
        amount decimals).2 = true) := by
  refine ⟨?_, ?_, ?_⟩
  · intro e he
    simp [resolveTransferHookAccountsTraced, he]
  · intro ms hms hhook
    simp [resolveTransferHookAccountsTraced, hms, hhook]
  · intro ms hook hms hhook
    simp only [resolveTransferHookAccountsTraced, hms, hhook]
    cases env.addExtraAccountMetas
        (transferCheckedKeys source mint destination authority) hook.programId
        source mint destination authority amount <;> rfl

/-- An environment for the no-extension half of the amended C8. -/
def envBareMint : LedgerEnv :=
  ⟨fun _ => .ok ⟨none⟩, fun _ _ _ _ _ _ _ => .error "unreachable", fun _ => none⟩

theorem c8_amended_witness :
    resolveTransferHookAccountsTraced envBareMint 35 36 37 38 50 9 = ([], false) ∧
    (resolveTransferHookAccountsTraced envNullProgramHook 30 31 32 33 100 9).2 =
      true :=
  ⟨(c8_amended envBareMint 35 36 37 38 50 9).2.1 ⟨none⟩ rfl rfl,
   (c8_amended envNullProgramHook 30 31 32 33 100 9).2.2
      ⟨some ⟨9, NULL_ADDRESS⟩⟩ ⟨9, NULL_ADDRESS⟩ rfl rfl⟩

-- ── Claim C5 ────────────────────────────────────────────────────────

/-- C5 counterexample: the generic transaction-submission helper
sendAndConfirmVersionedTransaction performs NO simulation before sending,
and its default sends with preflight checks enabled (skipPreflight is
false by default) — so transaction assembly and submission does not
simulate every assembled transaction before sending it. -/
theorem c5_counterexample :
    TxStep.simulate ∉
      sendAndConfirmVersionedTransactionFlow sendAndConfirmDefaultSkipPreflight ∧
    TxStep.send false ∈
      sendAndConfirmVersionedTransactionFlow sendAndConfirmDefaultSkipPreflight ∧
    sendAndConfirmDefaultSkipPreflight = false := by
  decide

/-- C5 amended: the createToken submission flow simulates before sending,
propagates a failure carrying the structured simulation log when
simulation reports an error and never reaches the send step in that
case, and on simulation success submits with preflight checks disabled;
the generic helper sendAndConfirmVersionedTransaction, by contrast,
performs no simulation and defaults to preflight enabled. -/
theorem c5_amended (sim : SimResult) :
    (∀ e, sim.err = some e →
      createTokenSubmitFlow sim =
        ([TxStep.simulate], some (mintSimFailureMessage e sim.logs)) ∧
      (∀ b, TxStep.send b ∉ (createTokenSubmitFlow sim).1)) ∧
    (sim.err = none →
      createTokenSubmitFlow sim =
        ([TxStep.simulate, TxStep.send true, TxStep.confirm], none)) ∧
    TxStep.simulate ∉
      sendAndConfirmVersionedTransactionFlow sendAndConfirmDefaultSkipPreflight := by
  refine ⟨?_, ?_, by decide⟩
  · intro e he
    constructor
    · simp [createTokenSubmitFlow, he]
    · intro b
      simp [createTokenSubmitFlow, he]
  · intro he
    simp [createTokenSubmitFlow, he]

theorem c5_amended_witness :
    createTokenSubmitFlow ⟨some "custom program error", ["log1", "log2"]⟩ =
      ([TxStep.simulate],
        some (mintSimFailureMessage "custom program error" ["log1", "log2"])) ∧
    createTokenSubmitFlow ⟨none, []⟩ =
      ([TxStep.simulate, TxStep.send true, TxStep.confirm], none) :=
  ⟨((c5_amended ⟨some "custom program error", ["log1", "log2"]⟩).1
      "custom program error" rfl).1,
   (c5_amended ⟨none, []⟩).2.1 rfl⟩

-- ── Claim C9 ────────────────────────────────────────────────────────

/-- C9: the purchase instruction built by buyToken carries exactly the 11
fixed accounts buyer, mint, global config, sale creator, sale config,
vault, vault token account, buyer token account, token-program selector,
associated-account-program, system program, in that order, followed by
the resolved extra accounts; on an extensible-token mint (the case of an
active transfer-policy gate) its length is 11 plus the resolved
extra-account count. -/
theorem c9_purchase_account_schema (env : LedgerEnv)
    (buyer mint config creator icoConfigAccount icoVaultAccount vaultAta buyerAta : Addr)
    (amountUnits : Nat)
    (h : getTokenProgram env mint = TOKEN_2022_PROGRAM_ID) :
    buyTokenPurchaseAccounts env buyer mint config creator icoConfigAccount
      icoVaultAccount vaultAta buyerAta amountUnits =
      [buyer, mint, config, creator, icoConfigAccount, icoVaultAccount, vaultAta,
       buyerAta, TOKEN_2022_PROGRAM_ID, ASSOCIATED_TOKEN_PROGRAM_ID,
       SYSTEM_PROGRAM_ID] ++
      (resolveTransferHookAccounts env mint vaultAta buyerAta icoVaultAccount
        amountUnits 9).map (fun a => a.pubkey) ∧
    (buyTokenPurchaseAccounts env buyer mint config creator icoConfigAccount
      icoVaultAccount vaultAta buyerAta amountUnits).length =
      11 + (resolveTransferHookAccounts env mint vaultAta buyerAta
        icoVaultAccount amountUnits 9).length := by
  constructor
  · simp [buyTokenPurchaseAccounts, buyTokenExtraAccounts, h]
  · simp [buyTokenPurchaseAccounts, buyTokenExtraAccounts, h]
    omega

/-- An environment with an extensible-token mint under an active gate at
program 88 whose probe resolves two extra accounts. -/
def envGatedSaleMint : LedgerEnv :=
  ⟨fun _ => .ok ⟨some ⟨9, 88⟩⟩,
   fun keys _ _ _ _ _ _ => .ok (keys ++ [⟨204, false, false⟩, ⟨88, false, false⟩]),
   fun _ => some TOKEN_2022_PROGRAM_ID⟩

theorem c9_purchase_account_schema_witness :
    getTokenProgram envGatedSaleMint 40 = TOKEN_2022_PROGRAM_ID ∧
    buyTokenPurchaseAccounts envGatedSaleMint 41 40 42 43 44 45 46 47 1000 =
      [41, 40, 42, 43, 44, 45, 46, 47, TOKEN_2022_PROGRAM_ID,
       ASSOCIATED_TOKEN_PROGRAM_ID, SYSTEM_PROGRAM_ID] ++ [204, 88] ∧
    (buyTokenPurchaseAccounts envGatedSaleMint 41 40 42 43 44 45 46 47
      1000).length = 13 :=
  ⟨rfl,
   ((c9_purchase_account_schema envGatedSaleMint 41 40 42 43 44 45 46 47
      1000 rfl).1).trans (by decide),
   by
    have h := (c9_purchase_account_schema envGatedSaleMint 41 40 42 43 44 45 46
      47 1000 rfl).2
    rw [h]
    rfl⟩

-- ── Claim C6 ────────────────────────────────────────────────────────

/-- C6 counterexample: the minute-level round trip fails at 3000. The
conversion to a wall-clock string subtracts one wrap at most, so 3000
renders as the out-of-range string "31:30", which parses back to 1560,
not to 3000 mod 1440 = 120 — inputs outside [0, 1439] are NOT normalized
via modulo 1440. -/
theorem c6_counterexample :
    utcMinuteToIstTime 3000 = "31:30" ∧
    istTimeToUtcMinute (utcMinuteToIstTime 3000) = 1560 ∧
    (3000 : Int).emod 1440 = 120 ∧
    istTimeToUtcMinute (utcMinuteToIstTime 3000) ≠ (3000 : Int).emod 1440 := by
  decide

set_option maxHeartbeats 8000000 in
/-- The minute-level round trip on the shifted range, indexed as 107
blocks of 30: it holds for every minute 30a + b - 330 with a < 107 and
b < 30, that is for minutes between -330 and 2879. -/
lemma istRoundTrip_block : ∀ a : Nat, a < 107 → ∀ b : Nat, b < 30 →
    istTimeToUtcMinute (utcMinuteToIstTime (((30 * a + b : Nat) : Int) - 330)) =
      (((30 * a + b : Nat) : Int) - 330).emod 1440 := by
  decide

/-- The minute-level round trip holds on the shifted range 0 ≤ k < 3210,
that is for minutes between -330 and 2879. -/
lemma istRoundTrip_shifted : ∀ k : Nat, k < 3210 →
    istTimeToUtcMinute (utcMinuteToIstTime ((k : Int) - 330)) =
      ((k : Int) - 330).emod 1440 := by
  intro k hk
  have hsplit : ((k : Int)) = ((30 * (k / 30) + k % 30 : Nat) : Int) := by
    push_cast
    omega
  rw [hsplit]
  exact istRoundTrip_block (k / 30) (by omega) (k % 30) (by omega)

set_option maxHeartbeats 8000000 in
/-- C6 amended: the string-level round trip holds for every valid "HH:MM"
wall-clock string, and the minute-level round trip
istTimeToUtcMinute (utcMinuteToIstTime m) = m mod 1440 holds for every
-330 ≤ m ≤ 2879 (one wrap of the +330 offset on either side) but not for
every integer m: it fails at the adjacent points m = -331 and m = 2880,
so inputs outside [0, 1439] are not normalized via modulo 1440 in
general. -/
theorem c6_amended :
    (∀ h : Nat, h < 24 → ∀ m : Nat, m < 60 →
      utcMinuteToIstTime (istTimeToUtcMinute (hhmm h m)) = hhmm h m) ∧
    (∀ m : Int, -330 ≤ m → m ≤ 2879 →
      istTimeToUtcMinute (utcMinuteToIstTime m) = m.emod 1440) ∧
    istTimeToUtcMinute (utcMinuteToIstTime (-331)) ≠ (-331 : Int).emod 1440 ∧
    istTimeToUtcMinute (utcMinuteToIstTime 2880) ≠ (2880 : Int).emod 1440 := by
  refine ⟨by decide, ?_, by decide, by decide⟩
  intro m h1 h2
  have hk : m = ((m + 330).toNat : Int) - 330 := by omega
  have hlt : (m + 330).toNat < 3210 := by omega
  calc istTimeToUtcMinute (utcMinuteToIstTime m)
      = istTimeToUtcMinute
          (utcMinuteToIstTime (((m + 330).toNat : Int) - 330)) := by rw [← hk]
    _ = (((m + 330).toNat : Int) - 330).emod 1440 :=
        istRoundTrip_shifted (m + 330).toNat hlt
    _ = m.emod 1440 := by rw [← hk]

theorem c6_amended_witness :
    utcMinuteToIstTime (istTimeToUtcMinute (hhmm 9 30)) = hhmm 9 30 ∧
    istTimeToUtcMinute (utcMinuteToIstTime 1500) = (1500 : Int).emod 1440 ∧
    istTimeToUtcMinute (utcMinuteToIstTime 2550) = (2550 : Int).emod 1440 :=
  ⟨c6_amended.1 9 (by decide) 30 (by decide),
   c6_amended.2.1 1500 (by decide) (by decide),
   c6_amended.2.1 2550 (by decide) (by decide)⟩

end TokenSuite
